import Mathlib

/-!
Verification of the bingWallpaper repository (package `bingclient`).

The Go sources are shallowly embedded:
* pure string manipulation (filename derivation, URL building) becomes pure
  Lean functions on `String` / `List Char`;
* the HTTP transport, the JSON decoder, and the filesystem writer are external
  effects; they are modelled as oracle fields of the `Client` /
  `BingImageStorage` structures, and every operation additionally returns the
  list of URLs it requested over the network, so that "no network call" is a
  provable statement;
* Go `error` values become `Option String` / `Except String`, with the exact
  message strings from the source;
* bytes (`[]byte`) are modelled as `List Nat`.
-/

namespace BingWallpaper

/-! ## Go standard-library string primitives used by the sources -/

/-- The double-quote character (written by code point to keep it out of
character-literal syntax). -/
def doubleQuoteChar : Char := Char.ofNat 34

/-- The single-quote character. -/
def singleQuoteChar : Char := Char.ofNat 39

/-- Models Go `strings.ReplaceAll(s, old, new)` where `old` and `new` are
single-rune strings. Since every replaced rune in the sources is ASCII,
substring replacement coincides with rune-wise replacement. -/
def goReplaceAllChar (s : String) (old new : Char) : String :=
  ⟨s.data.map (fun c => if c = old then new else c)⟩

/-- Models Go `strings.ReplaceAll(s, old, "")` (replacement by the empty
string, i.e. removal) where `old` is a single ASCII rune. -/
def goRemoveAllChar (s : String) (old : Char) : String :=
  ⟨s.data.filter (fun c => c != old)⟩

/-- The code points with the Unicode `White_Space` property — exactly the
characters accepted by Go `unicode.IsSpace`. -/
def goSpaceChars : List Char :=
  [Char.ofNat 0x09, Char.ofNat 0x0A, Char.ofNat 0x0B, Char.ofNat 0x0C,
   Char.ofNat 0x0D, Char.ofNat 0x20, Char.ofNat 0x85, Char.ofNat 0xA0,
   Char.ofNat 0x1680, Char.ofNat 0x2000, Char.ofNat 0x2001, Char.ofNat 0x2002,
   Char.ofNat 0x2003, Char.ofNat 0x2004, Char.ofNat 0x2005, Char.ofNat 0x2006,
   Char.ofNat 0x2007, Char.ofNat 0x2008, Char.ofNat 0x2009, Char.ofNat 0x200A,
   Char.ofNat 0x2028, Char.ofNat 0x2029, Char.ofNat 0x202F, Char.ofNat 0x205F,
   Char.ofNat 0x3000]

/-- Go `unicode.IsSpace`. -/
def isGoSpace (c : Char) : Bool := goSpaceChars.contains c

/-- Models Go `strings.TrimSpace`: drop `White_Space` runes from both ends. -/
def goTrimSpace (s : String) : String :=
  ⟨((s.data.dropWhile isGoSpace).reverse.dropWhile isGoSpace).reverse⟩

/-- Models Go `strings.Split(s, sep)[0]` for a single-rune separator: the text
before the first occurrence of `sep` (the whole string when absent). -/
def takeUntilChar (sep : Char) (s : String) : String :=
  ⟨s.data.takeWhile (fun c => c != sep)⟩

/-- Whether a string ends in the given character. -/
def endsWithChar (s : String) (c : Char) : Bool :=
  match s.data.getLast? with
  | some d => d == c
  | none => false

/-- Models Go `path/filepath.Join(dir, name)` on a Unix host for inputs that
are already clean (no `..`, `.` or doubled separators), which is the only way
the repository calls it. -/
def goFilepathJoin (dir name : String) : String :=
  if dir = "" then name
  else if endsWithChar dir '/' then dir ++ name
  else dir ++ "/" ++ name

/-- Replace the first occurrence of `old` (non-empty) in a character list. -/
def replaceFirstAux (old new : List Char) : List Char → List Char
  | [] => []
  | c :: rest =>
    if old.isPrefixOf (c :: rest) then new ++ (c :: rest).drop old.length
    else c :: replaceFirstAux old new rest

/-- Models Go `strings.Replace(s, old, new, 1)`: replace the first occurrence
of `old` by `new` (for empty `old`, Go inserts `new` at the start). -/
def goReplaceFirst (s old new : String) : String :=
  if old = "" then ⟨new.data ++ s.data⟩
  else ⟨replaceFirstAux old.data new.data s.data⟩

/-! ## Data model (client.go) -/

/-- `ImageData` from client.go: one element of the archive response. -/
structure ImageData where
  startdate : String
  fullstartdate : String
  enddate : String
  url : String
  urlbase : String
  copyright : String
  copyrightlink : String
  title : String
  quiz : String
  wp : Bool
  hsh : String
  drk : Int
  top : Int
  bot : Int
  hs : List String
deriving DecidableEq, Repr

/-- `DownloadResult` from downloader.go. `Option String` fields model the
nilable Go `error` fields. -/
structure DownloadResult where
  imageData : ImageData
  imagePath : String
  jsonPath : String
  downloadErr : Option String
  jsonErr : Option String
deriving DecidableEq, Repr

/-! ## Filename derivation (utils / storage sources) -/

/-- The character-replacement step shared (textually) by
`ExtractWallpaperDescription` and `DefaultFilenameGenerator.GenerateImageFilename`:
space→`_`, `/`→`-`, `\`→`-`, `:`→`-`, strip `?` `*` `<` `>`, `|`→`-`,
`"`→`'`, in source order. -/
def sanitizeDescription (s : String) : String :=
  let d1 := goReplaceAllChar s ' ' '_'
  let d2 := goReplaceAllChar d1 '/' '-'
  let d3 := goReplaceAllChar d2 '\\' '-'
  let d4 := goReplaceAllChar d3 ':' '-'
  let d5 := goRemoveAllChar d4 '?'
  let d6 := goRemoveAllChar d5 '*'
  let d7 := goRemoveAllChar d6 '<'
  let d8 := goRemoveAllChar d7 '>'
  let d9 := goReplaceAllChar d8 '|' '-'
  goReplaceAllChar d9 doubleQuoteChar singleQuoteChar

/-- `ExtractWallpaperDescription` from the utils source: prefer the title;
otherwise take the copyright text before the first full-width comma and then
before the first `(`; trim; sanitize. -/
def ExtractWallpaperDescription (imageData : ImageData) : String :=
  let description := imageData.title
  let description :=
    if description = "" then
      takeUntilChar '(' (takeUntilChar '，' imageData.copyright)
    else description
  let description := goTrimSpace description
  sanitizeDescription description

/-- The description derivation inlined in
`DefaultFilenameGenerator.GenerateImageFilename` (storage source), translated
step by step from that function's own body. -/
def descriptionForFilename (imageData : ImageData) : String :=
  let description := imageData.title
  let description :=
    if description = "" then
      takeUntilChar '(' (takeUntilChar '，' imageData.copyright)
    else description
  let description := goTrimSpace description
  let description := goReplaceAllChar description ' ' '_'
  let description := goReplaceAllChar description '/' '-'
  let description := goReplaceAllChar description '\\' '-'
  let description := goReplaceAllChar description ':' '-'
  let description := goRemoveAllChar description '?'
  let description := goRemoveAllChar description '*'
  let description := goRemoveAllChar description '<'
  let description := goRemoveAllChar description '>'
  let description := goReplaceAllChar description '|' '-'
  goReplaceAllChar description doubleQuoteChar singleQuoteChar

/-- `DefaultFilenameGenerator.GenerateImageFilename`:
`filepath.Join(basePath, startdate ++ "_" ++ description ++ ".jpg")`. -/
def GenerateImageFilename (imageData : ImageData) (basePath : String) : String :=
  let filename := imageData.startdate ++ "_" ++ descriptionForFilename imageData ++ ".jpg"
  goFilepathJoin basePath filename

/-- `DefaultFilenameGenerator.GenerateJsonFilename`:
`filepath.Join(basePath, "bing_data_" ++ startdate ++ ".json")`. -/
def GenerateJsonFilename (imageData : ImageData) (basePath : String) : String :=
  let filename := "bing_data_" ++ imageData.startdate ++ ".json"
  goFilepathJoin basePath filename

/-! ## Client (client.go)

The HTTP transport (`http.Client.Do`, status checking, body reading) and the
JSON decoder (`json.Unmarshal` into `HPImageArchiveResponse` followed by the
`.Images` projection) are external effects, modelled by the oracle fields
`http` and `parse`. Every client operation returns, next to its
`Except`-result, the list of URLs it requested, so that "no network call"
is expressible. -/

structure Client where
  baseURL : String
  locale : String
  userAgent : String
  highQuality : Bool
  /-- Oracle for a `GET` request: the body bytes on HTTP 200, or the error
  produced by request creation / transport / a non-200 status / body read. -/
  http : String → Except String (List Nat)
  /-- Oracle for `json.Unmarshal` + `.Images`: the decoded image list, or a
  decoding error. -/
  parse : List Nat → Except String (List ImageData)

/-- `Client.sendRequest`: one `GET` round-trip, logged as one request. -/
def sendRequest (c : Client) (_method url : String) :
    Except String (List Nat) × List String :=
  (c.http url, [url])

/-- `Client.GetBingImageURL`: absolute image URL, with the resolution token
replaced by `UHD` in high-quality mode (`strings.Replace(..., 1)`). -/
def GetBingImageURL (c : Client) (imageData : ImageData) : String :=
  let imageURL := "https://www.bing.com" ++ imageData.url
  if c.highQuality then goReplaceFirst imageURL "1920x1080" "UHD" else imageURL

/-- `Client.GetBingApiURL`:
`fmt.Sprintf("%s?format=js&n=%d&idx=%d&mkt=%s", baseURL, count, daysAgo, locale)`. -/
def GetBingApiURL (c : Client) (daysAgo count : Int) : String :=
  c.baseURL ++ "?format=js&n=" ++ toString count ++ "&idx=" ++ toString daysAgo
    ++ "&mkt=" ++ c.locale

/-- `Client.FetchRawImageData`. -/
def FetchRawImageData (c : Client) (imageData : ImageData) :
    Except String (List Nat) × List String :=
  sendRequest c "GET" (GetBingImageURL c imageData)

/-- `Client.FetchRawJsonData`. -/
def FetchRawJsonData (c : Client) (apiURL : String) :
    Except String (List Nat) × List String :=
  sendRequest c "GET" apiURL

/-- `Client.parseImageResponse`: decode, then fail when the image list is
empty. -/
def parseImageResponse (c : Client) (data : List Nat) :
    Except String (List ImageData) :=
  match c.parse data with
  | .error e => .error ("JSON解析失败: " ++ e)
  | .ok imgs => if imgs.isEmpty then .error "未找到图片数据" else .ok imgs

/-- `Client.fetchMultipleImageData` (the lowercase internal method): build the
API URL, fetch the raw JSON, parse it. -/
def fetchMultipleImageData (c : Client) (daysAgo count : Int) :
    Except String (List ImageData) × List String :=
  let apiURL := GetBingApiURL c daysAgo count
  let fetch := FetchRawJsonData c apiURL
  match fetch.1 with
  | .error e => (.error e, fetch.2)
  | .ok body =>
    match parseImageResponse c body with
    | .error e => (.error e, fetch.2)
    | .ok imgs => (.ok imgs, fetch.2)

/-- `Client.FetchMultipleImageData`: the exported batch call with the
`1 ≤ days ≤ 16` validation, checked before any request is issued. -/
def FetchMultipleImageData (c : Client) (days : Int) :
    Except String (List ImageData) × List String :=
  if days ≤ 0 ∨ days > 16 then
    (.error ("days 必须在 1-16 之间，当前值: " ++ toString days), [])
  else fetchMultipleImageData c 0 days

/-- `Client.FetchImageData`: fetch one record at offset `daysAgo` and return
the first image (after a defensive emptiness re-check). -/
def FetchImageData (c : Client) (daysAgo : Int) :
    Except String ImageData × List String :=
  let fetch := fetchMultipleImageData c daysAgo 1
  match fetch.1 with
  | .error e => (.error e, fetch.2)
  | .ok [] => (.error "未找到图片数据", fetch.2)
  | .ok (img :: _) => (.ok img, fetch.2)

/-! ## Storage (storage source)

`Storage.Save` (directory creation + file write) is an external effect,
modelled by the oracle field `save` (`none` = success, `some e` = IO error).
The filename-generator strategy of `BingImageStorage` is kept as the two
function fields `genImage` / `genJson`; `NewBingImageStorage` installs the
default generator, exactly as the Go constructor does. -/

structure BingImageStorage where
  save : List Nat → String → Option String
  genImage : ImageData → String → String
  genJson : ImageData → String → String
  outputDir : String

/-- `NewBingImageStorage`: file storage plus the default filename generator. -/
def NewBingImageStorage (save : List Nat → String → Option String)
    (outputDir : String) : BingImageStorage :=
  { save := save, genImage := GenerateImageFilename,
    genJson := GenerateJsonFilename, outputDir := outputDir }

/-- `BingImageStorage.SaveImage`: generate the image path, save, and return
the path on success (empty-string path is returned only through the error). -/
def SaveImage (bis : BingImageStorage) (data : List Nat) (imageData : ImageData) :
    Except String String :=
  let filePath := bis.genImage imageData bis.outputDir
  match bis.save data filePath with
  | some e => .error e
  | none => .ok filePath

/-- `BingImageStorage.SaveJson`. -/
def SaveJson (bis : BingImageStorage) (data : List Nat) (imageData : ImageData) :
    Except String String :=
  let filePath := bis.genJson imageData bis.outputDir
  match bis.save data filePath with
  | some e => .error e
  | none => .ok filePath

/-! ## Downloader (downloader.go) -/

structure Downloader where
  client : Client
  storage : BingImageStorage
  saveJsonData : Bool

/-- `Downloader.SaveWallpaper`: fetch the raw image (partial result carrying
`DownloadErr` on failure), save it (same policy), then — when `SaveJsonData`
is set — fetch and save the raw JSON, recording any JSON failure in `JsonErr`
without failing the call. Returns (result, error, requested URLs); the Go
original returns a non-nil result in every branch of this function. -/
def SaveWallpaper (d : Downloader) (imageData : ImageData) (daysAgo : Int) :
    DownloadResult × Option String × List String :=
  let result0 : DownloadResult :=
    { imageData := imageData, imagePath := "", jsonPath := "",
      downloadErr := none, jsonErr := none }
  let fetch := FetchRawImageData d.client imageData
  match fetch.1 with
  | .error e =>
    ({ result0 with downloadErr := some e }, some ("图片下载失败: " ++ e), fetch.2)
  | .ok imageBytes =>
    match SaveImage d.storage imageBytes imageData with
    | .error e =>
      ({ result0 with downloadErr := some e }, some ("图片保存失败: " ++ e), fetch.2)
    | .ok imagePath =>
      let result1 := { result0 with imagePath := imagePath }
      if d.saveJsonData then
        let jfetch := FetchRawJsonData d.client (GetBingApiURL d.client daysAgo 1)
        match jfetch.1 with
        | .error e =>
          ({ result1 with jsonErr := some e }, none, fetch.2 ++ jfetch.2)
        | .ok jsonBytes =>
          match SaveJson d.storage jsonBytes imageData with
          | .error e =>
            ({ result1 with jsonErr := some e }, none, fetch.2 ++ jfetch.2)
          | .ok jsonPath =>
            ({ result1 with jsonPath := jsonPath }, none, fetch.2 ++ jfetch.2)
      else (result1, none, fetch.2)

/-- `Downloader.FetchAndSaveWallpaper`: metadata fetch (nil result and an
error on failure), then `SaveWallpaper`. -/
def FetchAndSaveWallpaper (d : Downloader) (daysAgo : Int) :
    Option DownloadResult × Option String × List String :=
  let fetch := FetchImageData d.client daysAgo
  match fetch.1 with
  | .error e => (none, some ("获取图片数据失败: " ++ e), fetch.2)
  | .ok imageData =>
    let step := SaveWallpaper d imageData daysAgo
    (some step.1, step.2.1, fetch.2 ++ step.2.2)

/-- The loop body of `Downloader.FetchAndSaveWallpapers` over the remaining
`daysAgo` indices. On a per-day error: record `lastError`; with
`continueOnError` unset return the accumulated results at once (without the
failing day's result); otherwise append the day's result when it is non-nil
(`Option.toList`) and go on. The 1-second pacing sleep is pure timing and has
no observable effect in this model. -/
def fetchAndSaveWallpapersLoop (d : Downloader) (continueOnError : Bool) :
    List Int → List DownloadResult → Option String → List String →
    List DownloadResult × Option String × List String
  | [], results, lastError, log =>
    (results,
     match lastError with
     | some e => if continueOnError then some ("有部分壁纸处理失败: " ++ e) else none
     | none => none,
     log)
  | i :: rest, results, lastError, log =>
    let step := FetchAndSaveWallpaper d i
    match step.2.1 with
    | some e =>
      let lastError2 := some ("处理第 " ++ toString i ++ " 天的壁纸失败: " ++ e)
      if continueOnError then
        fetchAndSaveWallpapersLoop d continueOnError rest
          (results ++ step.1.toList) lastError2 (log ++ step.2.2)
      else (results, lastError2, log ++ step.2.2)
    | none =>
      fetchAndSaveWallpapersLoop d continueOnError rest
        (results ++ step.1.toList) lastError (log ++ step.2.2)

/-- `Downloader.FetchAndSaveWallpapers`: one metadata fetch per day,
`daysAgo = 0, 1, …, days-1`. -/
def FetchAndSaveWallpapers (d : Downloader) (days : Int) (continueOnError : Bool) :
    List DownloadResult × Option String × List String :=
  fetchAndSaveWallpapersLoop d continueOnError
    ((List.range days.toNat).map Int.ofNat) [] none []

/-- The loop body of `Downloader.SaveWallpapers` over the remaining records;
`i` is the running index, reused as `daysAgo`. Error policy as in
`fetchAndSaveWallpapersLoop`; here the per-day result is never nil in Go, so
it is appended directly. -/
def saveWallpapersLoop (d : Downloader) (continueOnError : Bool) :
    List ImageData → Int → List DownloadResult → Option String → List String →
    List DownloadResult × Option String × List String
  | [], _, results, lastError, log =>
    (results,
     match lastError with
     | some e => if continueOnError then some ("有部分壁纸处理失败: " ++ e) else none
     | none => none,
     log)
  | imageData :: rest, i, results, lastError, log =>
    let step := SaveWallpaper d imageData i
    match step.2.1 with
    | some e =>
      let lastError2 := some ("处理第 " ++ toString i ++ " 张壁纸失败: " ++ e)
      if continueOnError then
        saveWallpapersLoop d continueOnError rest (i + 1)
          (results ++ [step.1]) lastError2 (log ++ step.2.2)
      else (results, lastError2, log ++ step.2.2)
    | none =>
      saveWallpapersLoop d continueOnError rest (i + 1)
        (results ++ [step.1]) lastError (log ++ step.2.2)

/-- `Downloader.SaveWallpapers`: save a pre-fetched metadata list, using the
list index as `daysAgo`. -/
def SaveWallpapers (d : Downloader) (imageDataList : List ImageData)
    (continueOnError : Bool) :
    List DownloadResult × Option String × List String :=
  saveWallpapersLoop d continueOnError imageDataList 0 [] none []

/-- `Downloader.DownloadLatestWallpapers`: validate `1 ≤ days ≤ 16` before
anything else, fetch all metadata in one call, then `SaveWallpapers`. -/
def DownloadLatestWallpapers (d : Downloader) (days : Int) (continueOnError : Bool) :
    List DownloadResult × Option String × List String :=
  if days ≤ 0 ∨ days > 16 then
    ([], some ("days 必须在 1-16 之间，当前值: " ++ toString days), [])
  else
    let fetch := FetchMultipleImageData d.client days
    match fetch.1 with
    | .error e => ([], some e, fetch.2)
    | .ok imagesData =>
      let s := SaveWallpapers d imagesData continueOnError
      (s.1, s.2.1, fetch.2 ++ s.2.2)

/-! ## Helper definitions for the sanitization proofs -/

/-- The four leading character replacements of the sanitization chain
(space→`_`, `/`→`-`, `\`→`-`, `:`→`-`), as one character function. -/
def sanitizePre (c : Char) : Char :=
  let c1 := if c = ' ' then '_' else c
  let c2 := if c1 = '/' then '-' else c1
  let c3 := if c2 = '\\' then '-' else c2
  if c3 = ':' then '-' else c3

/-- The four removal tests of the sanitization chain (`?` `*` `<` `>`). -/
def sanitizeKeep (c : Char) : Bool :=
  (c != '?') && (c != '*') && (c != '<') && (c != '>')

/-- The two trailing character replacements of the sanitization chain
(`|`→`-`, `"`→`'`). -/
def sanitizePost (c : Char) : Char :=
  let c5 := if c = '|' then '-' else c
  if c5 = doubleQuoteChar then singleQuoteChar else c5

/-- Single-pass characterization of the sanitization chain. -/
def sanitizeStep (c : Char) : Option Char :=
  let a := sanitizePre c
  if sanitizeKeep a then some (sanitizePost a) else none

/-- The characters the specification forbids in a generated description. -/
def forbiddenFilenameChars : List Char :=
  ['/', '\\', ':', '?', '*', '<', '>', doubleQuoteChar]

/-! ## Concrete fixtures used by witness and counterexample theorems -/

/-- A metadata record with the given start date, title, relative URL and
copyright, and neutral remaining fields. -/
def mkImageData (startdate title u copyright : String) : ImageData :=
  { startdate := startdate, fullstartdate := "", enddate := "", url := u,
    urlbase := "", copyright := copyright, copyrightlink := "", title := title,
    quiz := "", wp := true, hsh := "", drk := 0, top := 0, bot := 0, hs := [] }

/-- A storage whose writes always succeed, output directory `/out`. -/
def okStorage : BingImageStorage := NewBingImageStorage (fun _ _ => none) "/out"

/-- A client whose requests always succeed. -/
def okClient : Client :=
  { baseURL := "b", locale := "L", userAgent := "ua", highQuality := false,
    http := fun _ => .ok [1],
    parse := fun _ => .ok [mkImageData "20240101" "t" "/0" ""] }

/-- A downloader over `okClient`/`okStorage` that skips JSON persistence. -/
def okDownloader : Downloader :=
  { client := okClient, storage := okStorage, saveJsonData := false }

/-- A client that fails exactly the single-day metadata/JSON request at
offset 7 and succeeds at everything else. -/
def c4Client : Client :=
  { baseURL := "b", locale := "L", userAgent := "ua", highQuality := false,
    http := fun url => if url = "b?format=js&n=1&idx=7&mkt=L" then .error "jsonfail" else .ok [9],
    parse := fun _ => .ok [] }

/-- A downloader over `c4Client` with JSON persistence enabled. -/
def c4Downloader : Downloader :=
  { client := c4Client, storage := okStorage, saveJsonData := true }

/-- The record processed in the C4 witness. -/
def c4Img : ImageData := mkImageData "20240105" "t4" "/c4" ""

/-! Specification helpers for the batch loops (indexed recursions used to
state what `saveWallpapersLoop` computes under `continueOnError = true`). -/

/-- The per-day results of saving a record list starting at index `i`. -/
def saveResultsFrom (d : Downloader) : Int → List ImageData → List DownloadResult
  | _, [] => []
  | i, imageData :: rest =>
    (SaveWallpaper d imageData i).1 :: saveResultsFrom d (i + 1) rest

/-- Whether some day of the record list, indexed from `i`, fails its image
stage. -/
def anyDayFails (d : Downloader) : Int → List ImageData → Bool
  | _, [] => false
  | i, imageData :: rest =>
    (SaveWallpaper d imageData i).2.1.isSome || anyDayFails d (i + 1) rest

/-! Fixtures for the C1 counterexample and witnesses. -/

/-- A client that fails the raw-image fetch for the record with URL `/2`,
serves per-offset metadata bytes for offsets 0–2, and succeeds elsewhere. -/
def c1Client : Client :=
  { baseURL := "b", locale := "L", userAgent := "ua", highQuality := false,
    http := fun url =>
      if url = "https://www.bing.com/2" then .error "fetchfail"
      else if url = "b?format=js&n=1&idx=0&mkt=L" then .ok [0]
      else if url = "b?format=js&n=1&idx=1&mkt=L" then .ok [10]
      else if url = "b?format=js&n=1&idx=2&mkt=L" then .ok [20]
      else .ok [1],
    parse := fun bytes =>
      if bytes = [0] then .ok [mkImageData "20240101" "t" "/0" ""]
      else if bytes = [10] then .ok [mkImageData "20240102" "t" "/1" ""]
      else if bytes = [20] then .ok [mkImageData "20240103" "t" "/2" ""]
      else .ok [mkImageData "20240101" "t" "/0" ""] }

/-- Downloader over `c1Client`, JSON persistence off. -/
def c1Downloader : Downloader :=
  { client := c1Client, storage := okStorage, saveJsonData := false }

def c1Img0 : ImageData := mkImageData "20240101" "t" "/0" ""

def c1Img1 : ImageData := mkImageData "20240102" "t" "/1" ""

def c1Img2 : ImageData := mkImageData "20240103" "t" "/2" ""

def c1Img3 : ImageData := mkImageData "20240104" "t" "/3" ""

def c1Img4 : ImageData := mkImageData "20240105" "t" "/4" ""

/-- The five-record batch whose third record fails its image fetch. -/
def c1Imgs : List ImageData := [c1Img0, c1Img1, c1Img2, c1Img3, c1Img4]

/-! Fixtures for the C3 witness. -/

/-- A storage that fails exactly the write of `/out/20240103_t.jpg`. -/
def c3Storage : BingImageStorage :=
  NewBingImageStorage
    (fun _ path => if path = "/out/20240103_t.jpg" then some "savefail" else none)
    "/out"

/-- Downloader whose image save fails for the record dated `20240103`. -/
def c3Downloader : Downloader :=
  { client := okClient, storage := c3Storage, saveJsonData := false }

/-! Fixtures for the C9 witness. -/

/-- A client that fails the single-day metadata request at offset 1 and
succeeds at everything else. -/
def c9Client : Client :=
  { baseURL := "b", locale := "L", userAgent := "ua", highQuality := false,
    http := fun url =>
      if url = "b?format=js&n=1&idx=1&mkt=L" then .error "metafail" else .ok [1],
    parse := fun _ => .ok [mkImageData "20240101" "t" "/0" ""] }

/-- Downloader over `c9Client`, JSON persistence off. -/
def c9Downloader : Downloader :=
  { client := c9Client, storage := okStorage, saveJsonData := false }

end BingWallpaper

namespace BingWallpaper

/-! ## General lemmas about the sanitization chain -/

/-- A map/filter chain of the shape used by the sanitization code collapses to
a single `filterMap` pass. -/
theorem chain_collapse (f1 f2 f3 f4 : Char → Char) (q1 q2 q3 q4 : Char → Bool)
    (f5 f6 : Char → Char) (l : List Char) :
    ((((((((((l.map f1).map f2).map f3).map f4).filter q1).filter q2).filter q3).filter q4).map f5).map f6)
    = l.filterMap (fun c =>
        let a := f4 (f3 (f2 (f1 c)))
        if q1 a && q2 a && q3 a && q4 a then some (f6 (f5 a)) else none) := by
  induction l with
  | nil => rfl
  | cons c l ih =>
    simp only [List.map_cons, List.filterMap_cons]
    by_cases h1 : q1 (f4 (f3 (f2 (f1 c)))) <;>
      by_cases h2 : q2 (f4 (f3 (f2 (f1 c)))) <;>
        by_cases h3 : q3 (f4 (f3 (f2 (f1 c)))) <;>
          by_cases h4 : q4 (f4 (f3 (f2 (f1 c)))) <;>
            simp only [List.filter_cons, h1, h2, h3, h4, Bool.and_self, Bool.true_and,
              Bool.false_and, Bool.and_false, Bool.and_true, Bool.false_eq_true, if_true,
              if_false, ite_true, ite_false, List.map_cons, ih]

/-- The sanitization chain of `sanitizeDescription`, viewed character-wise. -/
theorem sanitizeDescription_data (s : String) :
    (sanitizeDescription s).data = s.data.filterMap sanitizeStep :=
  chain_collapse (fun c => if c = ' ' then '_' else c)
    (fun c => if c = '/' then '-' else c)
    (fun c => if c = '\\' then '-' else c)
    (fun c => if c = ':' then '-' else c)
    (fun c => c != '?') (fun c => c != '*') (fun c => c != '<') (fun c => c != '>')
    (fun c => if c = '|' then '-' else c)
    (fun c => if c = doubleQuoteChar then singleQuoteChar else c)
    s.data

/-- `sanitizePre` never produces one of the four characters it replaces. -/
theorem sanitizePre_notMem (c : Char) :
    sanitizePre c ∉ ([' ', '/', '\\', ':'] : List Char) := by
  by_cases h1 : c = ' ' <;> by_cases h2 : c = '/' <;>
    by_cases h3 : c = '\\' <;> by_cases h4 : c = ':' <;>
      simp_all [sanitizePre]

/-- Characters surviving one sanitization pass avoid every character the pass
replaces or removes. -/
theorem sanitizeStep_some_notMem {c c' : Char} (h : sanitizeStep c = some c') :
    c' ∉ ([' ', '/', '\\', ':', '?', '*', '<', '>', '|', doubleQuoteChar] : List Char) := by
  have hpre := sanitizePre_notMem c
  unfold sanitizeStep at h
  by_cases hk : sanitizeKeep (sanitizePre c)
  · simp only [hk, if_true] at h
    obtain rfl : sanitizePost (sanitizePre c) = c' := by simpa using h
    have hk' := hk
    simp only [sanitizeKeep, Bool.and_eq_true, bne_iff_ne, ne_eq] at hk'
    obtain ⟨⟨⟨hq, hs⟩, hl⟩, hg⟩ := hk'
    simp only [List.mem_cons, List.not_mem_nil, or_false, not_or] at hpre
    obtain ⟨hsp, hsl, hbs, hco⟩ := hpre
    unfold sanitizePost
    by_cases hb : sanitizePre c = '|'
    · rw [if_pos hb]
      have : ¬(('-' : Char) = doubleQuoteChar) := by decide
      rw [if_neg this]
      decide
    · rw [if_neg hb]
      by_cases hd : sanitizePre c = doubleQuoteChar
      · rw [if_pos hd]
        decide
      · rw [if_neg hd]
        simp [hsp, hsl, hbs, hco, hq, hs, hl, hg, hb, hd]
  · simp [hk] at h

/-- A character that avoids everything the pass touches is a fixed point of
`sanitizeStep`. -/
theorem sanitizeStep_fixed {c : Char}
    (h : c ∉ ([' ', '/', '\\', ':', '?', '*', '<', '>', '|', doubleQuoteChar] : List Char)) :
    sanitizeStep c = some c := by
  simp only [List.mem_cons, List.not_mem_nil, or_false, not_or] at h
  obtain ⟨h1, h2, h3, h4, h5, h6, h7, h8, h9, h10⟩ := h
  have hpre : sanitizePre c = c := by simp [sanitizePre, h1, h2, h3, h4]
  have hkeep : sanitizeKeep c = true := by
    simp [sanitizeKeep, bne_iff_ne, h5, h6, h7, h8]
  have hpost : sanitizePost c = c := by simp [sanitizePost, h9, h10]
  simp [sanitizeStep, hpre, hkeep, hpost]

/-- Any character of a sanitized description avoids the forbidden characters
and the space. -/
theorem sanitizeDescription_chars {s : String} {c : Char}
    (hc : c ∈ (sanitizeDescription s).data) :
    c ∉ forbiddenFilenameChars ∧ c ≠ ' ' := by
  rw [sanitizeDescription_data] at hc
  obtain ⟨a, -, ha⟩ := List.mem_filterMap.mp hc
  have hn := sanitizeStep_some_notMem ha
  simp only [List.mem_cons, List.not_mem_nil, or_false, not_or] at hn
  obtain ⟨h1, h2, h3, h4, h5, h6, h7, h8, h9, h10⟩ := hn
  exact ⟨by simp [forbiddenFilenameChars, h2, h3, h4, h5, h6, h7, h8, h10], h1⟩

/-- One sanitization pass is a fixed point of a second pass. -/
theorem sanitizeDescription_idem (s : String) :
    sanitizeDescription (sanitizeDescription s) = sanitizeDescription s := by
  apply String.ext
  rw [sanitizeDescription_data, sanitizeDescription_data, List.filterMap_filterMap]
  have hfun : (fun x => (sanitizeStep x).bind sanitizeStep) = sanitizeStep := by
    funext c
    cases h : sanitizeStep c with
    | none => simp
    | some c' => simp [sanitizeStep_fixed (sanitizeStep_some_notMem h)]
  rw [hfun]

/-- C6: The filename sanitization is total and idempotent: for every
title/copyright string, applying the character-replacement step once or twice
yields the same string, and the resulting description — in particular the
description computed by `ExtractWallpaperDescription`, which is what the
generated filename embeds — contains none of the characters
`/ \ : ? * < > "` and no spaces. -/
theorem c6_sanitization_idempotent_total :
    (∀ s : String, sanitizeDescription (sanitizeDescription s) = sanitizeDescription s) ∧
    (∀ (s : String) (c : Char), c ∈ (sanitizeDescription s).data →
      c ∉ forbiddenFilenameChars ∧ c ≠ ' ') ∧
    (∀ (imageData : ImageData) (c : Char),
      c ∈ (ExtractWallpaperDescription imageData).data →
      c ∉ forbiddenFilenameChars ∧ c ≠ ' ') := by
  refine ⟨sanitizeDescription_idem, fun s c hc => sanitizeDescription_chars hc,
    fun imageData c hc => ?_⟩
  exact sanitizeDescription_chars
    (s := goTrimSpace (if imageData.title = "" then
      takeUntilChar '(' (takeUntilChar '，' imageData.copyright) else imageData.title)) hc

/-- C6 witness: concrete instance of idempotence and of the character
exclusion. -/
theorem c6_witness :
    sanitizeDescription (sanitizeDescription "a b/c:d?e*f<g>h|i") =
      sanitizeDescription "a b/c:d?e*f<g>h|i" ∧
    (' ' : Char) ∉ (sanitizeDescription "a b/c:d?e*f<g>h|i").data :=
  ⟨c6_sanitization_idempotent_total.1 "a b/c:d?e*f<g>h|i",
   fun hc => (c6_sanitization_idempotent_total.2.1 "a b/c:d?e*f<g>h|i" ' ' hc).2 rfl⟩

/-- C7: the description derivation inlined in
`DefaultFilenameGenerator.GenerateImageFilename` agrees extensionally with
`ExtractWallpaperDescription`, and the generated image filename therefore
embeds exactly the extracted description. -/
theorem c7_description_derivations_agree :
    ∀ imageData : ImageData,
      descriptionForFilename imageData = ExtractWallpaperDescription imageData ∧
      ∀ basePath : String, GenerateImageFilename imageData basePath =
        goFilepathJoin basePath
          (imageData.startdate ++ "_" ++ ExtractWallpaperDescription imageData ++ ".jpg") :=
  fun _ => ⟨rfl, fun _ => rfl⟩

/-- C8: `GetBingApiURL` is exactly the concatenation
`baseURL ++ "?format=js&n=" ++ count ++ "&idx=" ++ daysAgo ++ "&mkt=" ++ locale`,
and is deterministic in the configured base URL and locale. -/
theorem c8_api_url_construction :
    ∀ (c : Client) (daysAgo count : Int),
      GetBingApiURL c daysAgo count =
        c.baseURL ++ "?format=js&n=" ++ toString count ++ "&idx=" ++ toString daysAgo
          ++ "&mkt=" ++ c.locale ∧
      ∀ c' : Client, c'.baseURL = c.baseURL → c'.locale = c.locale →
        GetBingApiURL c' daysAgo count = GetBingApiURL c daysAgo count :=
  fun c daysAgo count =>
    ⟨rfl, fun c' h1 h2 => by simp [GetBingApiURL, h1, h2]⟩

/-- C8 witness: concrete URL construction and determinism instance. -/
theorem c8_witness :
    GetBingApiURL okClient 2 1 =
      okClient.baseURL ++ "?format=js&n=" ++ toString (1 : Int) ++ "&idx=" ++
        toString (2 : Int) ++ "&mkt=" ++ okClient.locale ∧
    okClient.baseURL = okClient.baseURL ∧ okClient.locale = okClient.locale ∧
    GetBingApiURL okClient 2 1 = GetBingApiURL okClient 2 1 :=
  ⟨(c8_api_url_construction okClient 2 1).1, rfl, rfl,
   (c8_api_url_construction okClient 2 1).2 okClient rfl rfl⟩

/-- C5: the concrete filenames for startdate `20240115`, title
`Aurora Borealis` and base directory `/out`. -/
theorem c5_concrete_filenames (imageData : ImageData)
    (h1 : imageData.startdate = "20240115")
    (h2 : imageData.title = "Aurora Borealis") :
    GenerateImageFilename imageData "/out" = "/out/20240115_Aurora_Borealis.jpg" ∧
    GenerateJsonFilename imageData "/out" = "/out/bing_data_20240115.json" := by
  constructor
  · have hdesc : descriptionForFilename imageData = "Aurora_Borealis" := by
      simp only [descriptionForFilename]
      rw [h2, if_neg (by decide : ¬("Aurora Borealis" = ""))]
      decide
    simp only [GenerateImageFilename]
    rw [hdesc, h1]
    decide
  · simp only [GenerateJsonFilename]
    rw [h1]
    decide

/-- C5 witness: the concrete record instantiating `c5_concrete_filenames`. -/
theorem c5_witness :
    (mkImageData "20240115" "Aurora Borealis" "/x" "").startdate = "20240115" ∧
    (mkImageData "20240115" "Aurora Borealis" "/x" "").title = "Aurora Borealis" ∧
    GenerateImageFilename (mkImageData "20240115" "Aurora Borealis" "/x" "") "/out" =
      "/out/20240115_Aurora_Borealis.jpg" ∧
    GenerateJsonFilename (mkImageData "20240115" "Aurora Borealis" "/x" "") "/out" =
      "/out/bing_data_20240115.json" :=
  ⟨rfl, rfl,
   (c5_concrete_filenames (mkImageData "20240115" "Aurora Borealis" "/x" "") rfl rfl).1,
   (c5_concrete_filenames (mkImageData "20240115" "Aurora Borealis" "/x" "") rfl rfl).2⟩

/-! ## Lemmas about `SaveWallpaper` -/

/-- A non-empty string stays non-empty under left concatenation. -/
theorem append_ne_empty_of_right (s t : String) (ht : t.data ≠ []) : s ++ t ≠ "" := by
  intro h
  have h2 : s.data ++ t.data = [] := by
    simpa [String.data_append] using congrArg String.data h
  exact ht (List.append_eq_nil.mp h2).2

/-- The default image filename always carries the `.jpg` suffix, hence has a
non-empty character list. -/
theorem jpg_suffix_data_ne_nil (s : String) : (s ++ ".jpg").data ≠ [] := by
  rw [String.data_append]
  intro h
  have h2 := (List.append_eq_nil.mp h).2
  revert h2
  decide

/-- The default generator never returns an empty image path. -/
theorem GenerateImageFilename_ne_empty (imageData : ImageData) (basePath : String) :
    GenerateImageFilename imageData basePath ≠ "" := by
  simp only [GenerateImageFilename, goFilepathJoin]
  split_ifs
  · exact append_ne_empty_of_right _ ".jpg" (by decide)
  · exact append_ne_empty_of_right _ _
      (jpg_suffix_data_ne_nil (imageData.startdate ++ "_" ++ descriptionForFilename imageData))
  · exact append_ne_empty_of_right _ _
      (jpg_suffix_data_ne_nil (imageData.startdate ++ "_" ++ descriptionForFilename imageData))

/-- `SaveImage` succeeds only with the generated path. -/
theorem SaveImage_ok_path {bis : BingImageStorage} {b : List Nat} {imageData : ImageData}
    {p : String} (h : SaveImage bis b imageData = .ok p) :
    p = bis.genImage imageData bis.outputDir := by
  simp only [SaveImage] at h
  rcases hsv : bis.save b (bis.genImage imageData bis.outputDir) with _ | e <;>
    rw [hsv] at h <;> simp_all

/-- `SaveWallpaper` when the raw-image fetch fails. -/
theorem SaveWallpaper_fetch_error {d : Downloader} {imageData : ImageData} {k : Int}
    {e : String} (h : (FetchRawImageData d.client imageData).1 = .error e) :
    SaveWallpaper d imageData k =
      ({ imageData := imageData, imagePath := "", jsonPath := "",
         downloadErr := some e, jsonErr := none },
       some ("图片下载失败: " ++ e), (FetchRawImageData d.client imageData).2) := by
  simp [SaveWallpaper, h]

/-- `SaveWallpaper` when the fetch succeeds but the image save fails. -/
theorem SaveWallpaper_save_error {d : Downloader} {imageData : ImageData} {k : Int}
    {b : List Nat} {e : String} (hf : (FetchRawImageData d.client imageData).1 = .ok b)
    (hs : SaveImage d.storage b imageData = .error e) :
    SaveWallpaper d imageData k =
      ({ imageData := imageData, imagePath := "", jsonPath := "",
         downloadErr := some e, jsonErr := none },
       some ("图片保存失败: " ++ e), (FetchRawImageData d.client imageData).2) := by
  simp [SaveWallpaper, hf, hs]

/-- Exhaustive outcome analysis of `SaveWallpaper`: either the image stage
failed — error returned, `DownloadErr` set, empty `ImagePath` — or it
succeeded — no error, no `DownloadErr`, `ImagePath` the path accepted by
`SaveImage`. -/
theorem SaveWallpaper_cases (d : Downloader) (imageData : ImageData) (k : Int) :
    (∃ e e', (SaveWallpaper d imageData k).2.1 = some e ∧
      (SaveWallpaper d imageData k).1.downloadErr = some e' ∧
      (SaveWallpaper d imageData k).1.imagePath = "") ∨
    ((SaveWallpaper d imageData k).2.1 = none ∧
      (SaveWallpaper d imageData k).1.downloadErr = none ∧
      ∃ b, (FetchRawImageData d.client imageData).1 = .ok b ∧
        SaveImage d.storage b imageData = .ok (SaveWallpaper d imageData k).1.imagePath) := by
  rcases hf : (FetchRawImageData d.client imageData).1 with e | b
  · rw [SaveWallpaper_fetch_error hf]
    exact Or.inl ⟨"图片下载失败: " ++ e, e, rfl, rfl, rfl⟩
  · rcases hs : SaveImage d.storage b imageData with e | p
    · rw [SaveWallpaper_save_error hf hs]
      exact Or.inl ⟨"图片保存失败: " ++ e, e, rfl, rfl, rfl⟩
    · have himg : (SaveWallpaper d imageData k).1.imagePath = p ∧
          (SaveWallpaper d imageData k).1.downloadErr = none ∧
          (SaveWallpaper d imageData k).2.1 = none := by
        simp only [SaveWallpaper, hf, hs]
        by_cases hj : d.saveJsonData
        · rcases hjf : (FetchRawJsonData d.client (GetBingApiURL d.client k 1)).1 with e2 | jb
          · simp [hj, hjf]
          · rcases hjs : SaveJson d.storage jb imageData with e2 | jp
            · simp [hj, hjf, hjs]
            · simp [hj, hjf, hjs]
        · simp [hj]
      refine Or.inr ⟨himg.2.2, himg.2.1, b, rfl, ?_⟩
      rw [himg.1]
      exact hs

/-- C10: `SaveWallpaper` returns no error iff the result's `DownloadErr` is
nil; on success `ImagePath` is the (non-empty) path accepted by `SaveImage`,
and on failure `ImagePath` is empty with `DownloadErr` set. Stated for a
storage carrying the default filename generator, as installed by
`NewBingImageStorage`. -/
theorem c10_save_wallpaper_invariant (d : Downloader) (imageData : ImageData)
    (daysAgo : Int) (hgen : d.storage.genImage = GenerateImageFilename) :
    ((SaveWallpaper d imageData daysAgo).2.1 = none ↔
      (SaveWallpaper d imageData daysAgo).1.downloadErr = none) ∧
    ((SaveWallpaper d imageData daysAgo).2.1 = none →
      ∃ b, (FetchRawImageData d.client imageData).1 = .ok b ∧
        SaveImage d.storage b imageData =
          .ok (SaveWallpaper d imageData daysAgo).1.imagePath ∧
        (SaveWallpaper d imageData daysAgo).1.imagePath ≠ "") ∧
    ((SaveWallpaper d imageData daysAgo).2.1 ≠ none →
      (SaveWallpaper d imageData daysAgo).1.imagePath = "" ∧
      (SaveWallpaper d imageData daysAgo).1.downloadErr ≠ none) := by
  rcases SaveWallpaper_cases d imageData daysAgo with
    ⟨e, e', h1, h2, h3⟩ | ⟨h1, h2, b, hb, hs⟩
  · refine ⟨by rw [h1, h2]; simp, ?_, ?_⟩
    · intro h
      rw [h1] at h
      cases h
    · intro _
      exact ⟨h3, by rw [h2]; simp⟩
  · have hpath : (SaveWallpaper d imageData daysAgo).1.imagePath ≠ "" := by
      rw [SaveImage_ok_path hs, hgen]
      exact GenerateImageFilename_ne_empty imageData d.storage.outputDir
    refine ⟨by rw [h1, h2], ?_, ?_⟩
    · intro _
      exact ⟨b, hb, hs, hpath⟩
    · intro h
      exact absurd h1 h

/-- C10 witness: a concrete successful `SaveWallpaper` call instantiating the
invariant. -/
theorem c10_witness :
    okDownloader.storage.genImage = GenerateImageFilename ∧
    ((SaveWallpaper okDownloader (mkImageData "20240101" "t" "/0" "") 0).2.1 = none ↔
      (SaveWallpaper okDownloader (mkImageData "20240101" "t" "/0" "") 0).1.downloadErr = none) :=
  ⟨rfl,
   (c10_save_wallpaper_invariant okDownloader (mkImageData "20240101" "t" "/0" "") 0 rfl).1⟩

/-- C4: when the image fetch and the image save both succeed, a JSON-fetch or
JSON-save failure is recorded in `JsonErr`, leaves `JsonPath` empty, and
`SaveWallpaper` still returns without error. -/
theorem c4_json_failure_nonfatal (d : Downloader) (imageData : ImageData)
    (daysAgo : Int) (hj : d.saveJsonData = true) (b : List Nat)
    (hf : (FetchRawImageData d.client imageData).1 = .ok b) (p : String)
    (hs : SaveImage d.storage b imageData = .ok p)
    (hjf : (∃ e, (FetchRawJsonData d.client (GetBingApiURL d.client daysAgo 1)).1 = .error e) ∨
      (∃ jb e, (FetchRawJsonData d.client (GetBingApiURL d.client daysAgo 1)).1 = .ok jb ∧
        SaveJson d.storage jb imageData = .error e)) :
    (SaveWallpaper d imageData daysAgo).2.1 = none ∧
    (SaveWallpaper d imageData daysAgo).1.jsonErr ≠ none ∧
    (SaveWallpaper d imageData daysAgo).1.jsonPath = "" ∧
    (SaveWallpaper d imageData daysAgo).1.imagePath = p ∧
    (SaveWallpaper d imageData daysAgo).1.downloadErr = none := by
  rcases hjf with ⟨e, hje⟩ | ⟨jb, e, hjb, hjs⟩
  · simp [SaveWallpaper, hf, hs, hj, hje]
  · simp [SaveWallpaper, hf, hs, hj, hjb, hjs]

/-- C4 witness: concrete downloader whose JSON fetch fails at offset 7 while
the image pipeline succeeds. -/
theorem c4_witness :
    c4Downloader.saveJsonData = true ∧
    ((SaveWallpaper c4Downloader c4Img 7).2.1 = none ∧
     (SaveWallpaper c4Downloader c4Img 7).1.jsonErr ≠ none ∧
     (SaveWallpaper c4Downloader c4Img 7).1.jsonPath = "" ∧
     (SaveWallpaper c4Downloader c4Img 7).1.imagePath = "/out/20240105_t4.jpg" ∧
     (SaveWallpaper c4Downloader c4Img 7).1.downloadErr = none) :=
  ⟨rfl,
   c4_json_failure_nonfatal c4Downloader c4Img 7 rfl [9] rfl
     "/out/20240105_t4.jpg" rfl (Or.inl ⟨"jsonfail", rfl⟩)⟩

/-- C2: for `days` outside `[1,16]`, both `FetchMultipleImageData` and
`DownloadLatestWallpapers` fail with the validation error and issue no
network request (empty request log). -/
theorem c2_range_check_before_fetch (c : Client) (d : Downloader) (days : Int)
    (continueOnError : Bool) (hdays : days < 1 ∨ 16 < days) :
    FetchMultipleImageData c days =
      (.error ("days 必须在 1-16 之间，当前值: " ++ toString days), []) ∧
    DownloadLatestWallpapers d days continueOnError =
      ([], some ("days 必须在 1-16 之间，当前值: " ++ toString days), []) := by
  have h : days ≤ 0 ∨ days > 16 := by omega
  constructor
  · unfold FetchMultipleImageData
    rw [if_pos h]
  · unfold DownloadLatestWallpapers
    rw [if_pos h]

/-- C2 witness: concrete out-of-range day counts 0 and 17. -/
theorem c2_witness :
    ((0 : Int) < 1 ∨ (16 : Int) < 0) ∧ ((17 : Int) < 1 ∨ (16 : Int) < 17) ∧
    FetchMultipleImageData okClient 0 =
      (.error "days 必须在 1-16 之间，当前值: 0", []) ∧
    DownloadLatestWallpapers okDownloader 17 true =
      ([], some "days 必须在 1-16 之间，当前值: 17", []) :=
  ⟨Or.inl (by decide), Or.inr (by decide),
   (c2_range_check_before_fetch okClient okDownloader 0 true (Or.inl (by decide))).1,
   (c2_range_check_before_fetch okClient okDownloader 17 true (Or.inr (by decide))).2⟩

/-! ## Lemmas about the batch loops -/

/-- A day without error is appended and the loop continues. -/
theorem saveWallpapersLoop_cons_ok {d : Downloader} {cont : Bool}
    {imageData : ImageData} {rest : List ImageData} {i : Int}
    {acc : List DownloadResult} {le : Option String} {log : List String}
    (h : (SaveWallpaper d imageData i).2.1 = none) :
    saveWallpapersLoop d cont (imageData :: rest) i acc le log =
      saveWallpapersLoop d cont rest (i + 1)
        (acc ++ [(SaveWallpaper d imageData i).1]) le
        (log ++ (SaveWallpaper d imageData i).2.2) := by
  simp [saveWallpapersLoop, h]

/-- With `continueOnError` unset, a failing day returns the accumulated
results at once, without the failing day's result. -/
theorem saveWallpapersLoop_cons_err_stop {d : Downloader} {imageData : ImageData}
    {rest : List ImageData} {i : Int} {acc : List DownloadResult}
    {le : Option String} {log : List String} {e : String}
    (h : (SaveWallpaper d imageData i).2.1 = some e) :
    saveWallpapersLoop d false (imageData :: rest) i acc le log =
      (acc, some ("处理第 " ++ toString i ++ " 张壁纸失败: " ++ e),
       log ++ (SaveWallpaper d imageData i).2.2) := by
  simp [saveWallpapersLoop, h]

/-- With `continueOnError` set, a failing day is appended and the loop
continues with the updated last error. -/
theorem saveWallpapersLoop_cons_err_cont {d : Downloader} {imageData : ImageData}
    {rest : List ImageData} {i : Int} {acc : List DownloadResult}
    {le : Option String} {log : List String} {e : String}
    (h : (SaveWallpaper d imageData i).2.1 = some e) :
    saveWallpapersLoop d true (imageData :: rest) i acc le log =
      saveWallpapersLoop d true rest (i + 1)
        (acc ++ [(SaveWallpaper d imageData i).1])
        (some ("处理第 " ++ toString i ++ " 张壁纸失败: " ++ e))
        (log ++ (SaveWallpaper d imageData i).2.2) := by
  simp [saveWallpapersLoop, h]

/-- What the save loop computes under `continueOnError = true`: every record
contributes its result in order, and the final error is set iff a previous
error was carried in or some day fails. -/
theorem saveWallpapersLoop_true_spec (d : Downloader) :
    ∀ (l : List ImageData) (i : Int) (acc : List DownloadResult)
      (le : Option String) (log : List String),
      (saveWallpapersLoop d true l i acc le log).1 = acc ++ saveResultsFrom d i l ∧
      ((saveWallpapersLoop d true l i acc le log).2.1.isSome ↔
        (le.isSome ∨ anyDayFails d i l = true)) := by
  intro l
  induction l with
  | nil =>
    intro i acc le log
    cases le <;> simp [saveWallpapersLoop, saveResultsFrom, anyDayFails]
  | cons imageData rest ih =>
    intro i acc le log
    rcases hs : (SaveWallpaper d imageData i).2.1 with _ | e
    · rw [saveWallpapersLoop_cons_ok hs]
      obtain ⟨ha, hb⟩ := ih (i + 1) (acc ++ [(SaveWallpaper d imageData i).1]) le
        (log ++ (SaveWallpaper d imageData i).2.2)
      refine ⟨?_, ?_⟩
      · rw [ha]
        simp [saveResultsFrom, List.append_assoc]
      · rw [hb]
        simp [anyDayFails, hs]
    · rw [saveWallpapersLoop_cons_err_cont hs]
      obtain ⟨ha, hb⟩ := ih (i + 1) (acc ++ [(SaveWallpaper d imageData i).1])
        (some ("处理第 " ++ toString i ++ " 张壁纸失败: " ++ e))
        (log ++ (SaveWallpaper d imageData i).2.2)
      refine ⟨?_, ?_⟩
      · rw [ha]
        simp [saveResultsFrom, List.append_assoc]
      · rw [hb]
        simp [anyDayFails, hs]

/-- A `SaveWallpaper` call without error has no `DownloadErr`. -/
theorem SaveWallpaper_err_none_downloadErr {d : Downloader} {imageData : ImageData}
    {k : Int} (h : (SaveWallpaper d imageData k).2.1 = none) :
    (SaveWallpaper d imageData k).1.downloadErr = none := by
  rcases SaveWallpaper_cases d imageData k with ⟨e, e', h1, _, _⟩ | ⟨_, h2, _, _, _⟩
  · rw [h] at h1
    cases h1
  · exact h2

/-- A `SaveWallpaper` call without error has no `DownloadErr` and a non-empty
image path (default generator). -/
theorem SaveWallpaper_ok_fields {d : Downloader} {imageData : ImageData} {k : Int}
    (hgen : d.storage.genImage = GenerateImageFilename)
    (h : (SaveWallpaper d imageData k).2.1 = none) :
    (SaveWallpaper d imageData k).1.downloadErr = none ∧
    (SaveWallpaper d imageData k).1.imagePath ≠ "" := by
  rcases SaveWallpaper_cases d imageData k with ⟨e, e', h1, _, _⟩ | ⟨_, h2, b, hb, hs⟩
  · rw [h] at h1
    cases h1
  · refine ⟨h2, ?_⟩
    rw [SaveImage_ok_path hs, hgen]
    exact GenerateImageFilename_ne_empty imageData d.storage.outputDir

/-- `FetchAndSaveWallpaper` when the metadata fetch fails: nil result. -/
theorem FetchAndSaveWallpaper_meta_error {d : Downloader} {i : Int} {e : String}
    (h : (FetchImageData d.client i).1 = .error e) :
    FetchAndSaveWallpaper d i =
      (none, some ("获取图片数据失败: " ++ e), (FetchImageData d.client i).2) := by
  simp [FetchAndSaveWallpaper, h]

/-- `FetchAndSaveWallpaper` when the metadata fetch succeeds: delegates to
`SaveWallpaper`. -/
theorem FetchAndSaveWallpaper_meta_ok {d : Downloader} {i : Int}
    {imageData : ImageData} (h : (FetchImageData d.client i).1 = .ok imageData) :
    FetchAndSaveWallpaper d i =
      (some (SaveWallpaper d imageData i).1, (SaveWallpaper d imageData i).2.1,
       (FetchImageData d.client i).2 ++ (SaveWallpaper d imageData i).2.2) := by
  simp [FetchAndSaveWallpaper, h]

/-- A `FetchAndSaveWallpaper` call without error yields a result whose
`DownloadErr` is nil. -/
theorem FetchAndSaveWallpaper_err_none {d : Downloader} {i : Int}
    (h : (FetchAndSaveWallpaper d i).2.1 = none) :
    ∃ r, (FetchAndSaveWallpaper d i).1 = some r ∧ r.downloadErr = none := by
  rcases hm : (FetchImageData d.client i).1 with e | imageData
  · rw [FetchAndSaveWallpaper_meta_error hm] at h
    cases h
  · rw [FetchAndSaveWallpaper_meta_ok hm] at h ⊢
    refine ⟨(SaveWallpaper d imageData i).1, rfl, ?_⟩
    exact SaveWallpaper_err_none_downloadErr h

/-- A day without error is appended (when its result is non-nil) and the
per-day loop continues. -/
theorem fetchLoop_cons_ok {d : Downloader} {cont : Bool} {i : Int}
    {rest : List Int} {acc : List DownloadResult} {le : Option String}
    {log : List String} (h : (FetchAndSaveWallpaper d i).2.1 = none) :
    fetchAndSaveWallpapersLoop d cont (i :: rest) acc le log =
      fetchAndSaveWallpapersLoop d cont rest
        (acc ++ (FetchAndSaveWallpaper d i).1.toList) le
        (log ++ (FetchAndSaveWallpaper d i).2.2) := by
  simp [fetchAndSaveWallpapersLoop, h]

/-- With `continueOnError` unset, a failing day stops the per-day loop. -/
theorem fetchLoop_cons_err_stop {d : Downloader} {i : Int} {rest : List Int}
    {acc : List DownloadResult} {le : Option String} {log : List String}
    {e : String} (h : (FetchAndSaveWallpaper d i).2.1 = some e) :
    fetchAndSaveWallpapersLoop d false (i :: rest) acc le log =
      (acc, some ("处理第 " ++ toString i ++ " 天的壁纸失败: " ++ e),
       log ++ (FetchAndSaveWallpaper d i).2.2) := by
  simp [fetchAndSaveWallpapersLoop, h]

/-- With `continueOnError` set, a failing day appends its (possibly absent)
result and the per-day loop continues. -/
theorem fetchLoop_cons_err_cont {d : Downloader} {i : Int} {rest : List Int}
    {acc : List DownloadResult} {le : Option String} {log : List String}
    {e : String} (h : (FetchAndSaveWallpaper d i).2.1 = some e) :
    fetchAndSaveWallpapersLoop d true (i :: rest) acc le log =
      fetchAndSaveWallpapersLoop d true rest
        (acc ++ (FetchAndSaveWallpaper d i).1.toList)
        (some ("处理第 " ++ toString i ++ " 天的壁纸失败: " ++ e))
        (log ++ (FetchAndSaveWallpaper d i).2.2) := by
  simp [fetchAndSaveWallpapersLoop, h]

/-- Under `continueOnError = true`, the per-day loop's result list is exactly
the non-nil per-day results, in order. -/
theorem fetchLoop_true_results (d : Downloader) :
    ∀ (idxs : List Int) (acc : List DownloadResult) (le : Option String)
      (log : List String),
      (fetchAndSaveWallpapersLoop d true idxs acc le log).1 =
        acc ++ idxs.filterMap (fun i => (FetchAndSaveWallpaper d i).1) := by
  intro idxs
  induction idxs with
  | nil =>
    intro acc le log
    cases le <;> simp [fetchAndSaveWallpapersLoop]
  | cons i rest ih =>
    intro acc le log
    rcases hs : (FetchAndSaveWallpaper d i).2.1 with _ | e
    · rw [fetchLoop_cons_ok hs, ih]
      rcases hr : (FetchAndSaveWallpaper d i).1 with _ | r <;>
        simp [List.filterMap_cons, hr, List.append_assoc]
    · rw [fetchLoop_cons_err_cont hs, ih]
      rcases hr : (FetchAndSaveWallpaper d i).1 with _ | r <;>
        simp [List.filterMap_cons, hr, List.append_assoc]

/-- A `filterMap` is strictly shorter than its input when some member maps to
`none`. -/
theorem length_filterMap_lt_of_none {α β : Type} (f : α → Option β) :
    ∀ (l : List α) (x : α), x ∈ l → f x = none →
      (l.filterMap f).length < l.length := by
  intro l
  induction l with
  | nil =>
    intro x hx
    cases hx
  | cons a rest ih =>
    intro x hx hfx
    rcases List.mem_cons.mp hx with rfl | hmem
    · rw [List.filterMap_cons_none hfx]
      have := List.length_filterMap_le f rest
      simp only [List.length_cons]
      omega
    · rcases hfa : f a with _ | b
      · rw [List.filterMap_cons_none hfa]
        have := ih x hmem hfx
        simp only [List.length_cons]
        omega
      · rw [List.filterMap_cons_some hfa]
        have := ih x hmem hfx
        simp only [List.length_cons, List.length_cons]
        omega

/-- C9: with `continueOnError = true`, a day whose metadata fetch fails
contributes no entry to the result list of `FetchAndSaveWallpapers`, so the
list is strictly shorter than `days`. -/
theorem c9_failed_day_contributes_no_entry (d : Downloader) (days : Int) (k : Nat)
    (hk : k < days.toNat)
    (hfail : (FetchAndSaveWallpaper d (Int.ofNat k)).1 = none) :
    (FetchAndSaveWallpapers d days true).1.length < days.toNat := by
  have hres := fetchLoop_true_results d ((List.range days.toNat).map Int.ofNat) [] none []
  have heq : (FetchAndSaveWallpapers d days true).1 =
      ((List.range days.toNat).map Int.ofNat).filterMap
        (fun i => (FetchAndSaveWallpaper d i).1) := by
    show (fetchAndSaveWallpapersLoop d true
      ((List.range days.toNat).map Int.ofNat) [] none []).1 = _
    rw [hres]
    simp
  rw [heq]
  have hmem : Int.ofNat k ∈ (List.range days.toNat).map Int.ofNat :=
    List.mem_map.mpr ⟨k, List.mem_range.mpr hk, rfl⟩
  have hlt := length_filterMap_lt_of_none (fun i => (FetchAndSaveWallpaper d i).1)
    ((List.range days.toNat).map Int.ofNat) (Int.ofNat k) hmem hfail
  simpa [List.length_map, List.length_range] using hlt

/-- C9 witness: a three-day batch whose middle day's metadata fetch fails,
yielding two results. -/
theorem c9_witness :
    (1 < (3 : Int).toNat) ∧
    (FetchAndSaveWallpaper c9Downloader (Int.ofNat 1)).1 = none ∧
    (FetchAndSaveWallpapers c9Downloader 3 true).1.length < (3 : Int).toNat :=
  ⟨by decide, by decide,
   c9_failed_day_contributes_no_entry c9Downloader 3 1 (by decide) (by decide)⟩

/-- C3: a five-record batch under `continueOnError = true` whose third record
fails only at the image save: five results, the third with a set
`DownloadErr` and empty `ImagePath`, all others clean with non-empty paths,
and a non-nil summary error. -/
theorem c3_continue_on_error_full_list (d : Downloader) (a0 a1 a2 a3 a4 : ImageData)
    (b2 : List Nat) (e2 : String)
    (hgen : d.storage.genImage = GenerateImageFilename)
    (h0 : (SaveWallpaper d a0 0).2.1 = none)
    (h1 : (SaveWallpaper d a1 1).2.1 = none)
    (hf2 : (FetchRawImageData d.client a2).1 = .ok b2)
    (hs2 : SaveImage d.storage b2 a2 = .error e2)
    (h3 : (SaveWallpaper d a3 3).2.1 = none)
    (h4 : (SaveWallpaper d a4 4).2.1 = none) :
    (SaveWallpapers d [a0, a1, a2, a3, a4] true).1 =
      [(SaveWallpaper d a0 0).1, (SaveWallpaper d a1 1).1, (SaveWallpaper d a2 2).1,
       (SaveWallpaper d a3 3).1, (SaveWallpaper d a4 4).1] ∧
    (SaveWallpapers d [a0, a1, a2, a3, a4] true).1.length = 5 ∧
    ((SaveWallpaper d a2 2).1.downloadErr ≠ none ∧
     (SaveWallpaper d a2 2).1.imagePath = "") ∧
    ((SaveWallpaper d a0 0).1.downloadErr = none ∧
     (SaveWallpaper d a0 0).1.imagePath ≠ "") ∧
    ((SaveWallpaper d a1 1).1.downloadErr = none ∧
     (SaveWallpaper d a1 1).1.imagePath ≠ "") ∧
    ((SaveWallpaper d a3 3).1.downloadErr = none ∧
     (SaveWallpaper d a3 3).1.imagePath ≠ "") ∧
    ((SaveWallpaper d a4 4).1.downloadErr = none ∧
     (SaveWallpaper d a4 4).1.imagePath ≠ "") ∧
    (SaveWallpapers d [a0, a1, a2, a3, a4] true).2.1 ≠ none := by
  have hsw2 := SaveWallpaper_save_error (k := 2) hf2 hs2
  have herr2 : (SaveWallpaper d a2 2).2.1 = some ("图片保存失败: " ++ e2) := by rw [hsw2]
  have hdl2 : (SaveWallpaper d a2 2).1.downloadErr = some e2 := by rw [hsw2]
  have hip2 : (SaveWallpaper d a2 2).1.imagePath = "" := by rw [hsw2]
  obtain ⟨hres, hE⟩ := saveWallpapersLoop_true_spec d [a0, a1, a2, a3, a4] 0 [] none []
  have hlist : saveResultsFrom d 0 [a0, a1, a2, a3, a4] =
      [(SaveWallpaper d a0 0).1, (SaveWallpaper d a1 1).1, (SaveWallpaper d a2 2).1,
       (SaveWallpaper d a3 3).1, (SaveWallpaper d a4 4).1] := by
    simp [saveResultsFrom]
  have hout1 : (SaveWallpapers d [a0, a1, a2, a3, a4] true).1 =
      [(SaveWallpaper d a0 0).1, (SaveWallpaper d a1 1).1, (SaveWallpaper d a2 2).1,
       (SaveWallpaper d a3 3).1, (SaveWallpaper d a4 4).1] := by
    show (saveWallpapersLoop d true [a0, a1, a2, a3, a4] 0 [] none []).1 = _
    rw [hres, hlist]
    simp
  have hsome : (SaveWallpapers d [a0, a1, a2, a3, a4] true).2.1.isSome := by
    show (saveWallpapersLoop d true [a0, a1, a2, a3, a4] 0 [] none []).2.1.isSome
    exact hE.mpr (Or.inr (by simp [anyDayFails, herr2]))
  refine ⟨hout1, by rw [hout1]; rfl, ⟨by rw [hdl2]; simp, hip2⟩,
    SaveWallpaper_ok_fields hgen h0, SaveWallpaper_ok_fields hgen h1,
    SaveWallpaper_ok_fields hgen h3, SaveWallpaper_ok_fields hgen h4,
    Option.isSome_iff_ne_none.mp hsome⟩

/-- C3 witness: concrete five-record batch whose third record's image write
fails. -/
theorem c3_witness :
    (SaveWallpaper c3Downloader (mkImageData "20240101" "t" "/0" "") 0).2.1 = none ∧
    (FetchRawImageData c3Downloader.client (mkImageData "20240103" "t" "/2" "")).1 =
      .ok [1] ∧
    SaveImage c3Downloader.storage [1] (mkImageData "20240103" "t" "/2" "") =
      .error "savefail" ∧
    (SaveWallpapers c3Downloader
      [mkImageData "20240101" "t" "/0" "", mkImageData "20240102" "t" "/1" "",
       mkImageData "20240103" "t" "/2" "", mkImageData "20240104" "t" "/3" "",
       mkImageData "20240105" "t" "/4" ""] true).1.length = 5 ∧
    (SaveWallpapers c3Downloader
      [mkImageData "20240101" "t" "/0" "", mkImageData "20240102" "t" "/1" "",
       mkImageData "20240103" "t" "/2" "", mkImageData "20240104" "t" "/3" "",
       mkImageData "20240105" "t" "/4" ""] true).2.1 ≠ none :=
  ⟨by decide, rfl, rfl,
   (c3_continue_on_error_full_list c3Downloader
      (mkImageData "20240101" "t" "/0" "") (mkImageData "20240102" "t" "/1" "")
      (mkImageData "20240103" "t" "/2" "") (mkImageData "20240104" "t" "/3" "")
      (mkImageData "20240105" "t" "/4" "") [1] "savefail" rfl (by decide) (by decide)
      rfl rfl (by decide) (by decide)).2.1,
   (c3_continue_on_error_full_list c3Downloader
      (mkImageData "20240101" "t" "/0" "") (mkImageData "20240102" "t" "/1" "")
      (mkImageData "20240103" "t" "/2" "") (mkImageData "20240104" "t" "/3" "")
      (mkImageData "20240105" "t" "/4" "") [1] "savefail" rfl (by decide) (by decide)
      rfl rfl (by decide) (by decide)).2.2.2.2.2.2.2⟩

/-- C1 counterexample: in a concrete five-record batch whose third record
fails its image fetch under `continueOnError = false`, the returned list has
length 2 but does NOT contain the failing day's partially-populated result —
no element stems from the failing record (URL `/2`) and no element carries a
`DownloadErr`. This refutes the claim that the failing day's partial result
is included in the returned list. -/
theorem c1_counterexample :
    (SaveWallpapers c1Downloader c1Imgs false).1.length = 2 ∧
    (SaveWallpapers c1Downloader c1Imgs false).2.1 ≠ none ∧
    (∀ r ∈ (SaveWallpapers c1Downloader c1Imgs false).1, r.imageData.url ≠ "/2") ∧
    (∀ r ∈ (SaveWallpapers c1Downloader c1Imgs false).1, r.downloadErr = none) := by
  decide

/-- C1 (amended): with `continueOnError = false` and the record at index 2
failing its image fetch, `SaveWallpapers` — and the per-day path
`FetchAndSaveWallpapers` — return a list of length 2 holding exactly the two
successful results; the failing day's partially-populated result is NOT
included (it is discarded by the early return); and a non-nil terminal error
is returned. -/
theorem c1_stop_on_error_partial_result_dropped (d : Downloader)
    (a0 a1 a2 a3 a4 : ImageData) (e2 : String)
    (h0 : (SaveWallpaper d a0 0).2.1 = none)
    (h1 : (SaveWallpaper d a1 1).2.1 = none)
    (hf2 : (FetchRawImageData d.client a2).1 = .error e2)
    (g0 : (FetchAndSaveWallpaper d 0).2.1 = none)
    (g1 : (FetchAndSaveWallpaper d 1).2.1 = none)
    (gm2 : (FetchImageData d.client 2).1 = .ok a2) :
    ((SaveWallpapers d [a0, a1, a2, a3, a4] false).1 =
       [(SaveWallpaper d a0 0).1, (SaveWallpaper d a1 1).1] ∧
     (SaveWallpapers d [a0, a1, a2, a3, a4] false).1.length = 2 ∧
     (SaveWallpapers d [a0, a1, a2, a3, a4] false).2.1 ≠ none ∧
     (∀ r ∈ (SaveWallpapers d [a0, a1, a2, a3, a4] false).1, r.downloadErr = none)) ∧
    ((FetchAndSaveWallpapers d 5 false).1.length = 2 ∧
     (FetchAndSaveWallpapers d 5 false).2.1 ≠ none ∧
     (∀ r ∈ (FetchAndSaveWallpapers d 5 false).1, r.downloadErr = none)) := by
  have herr2 : (SaveWallpaper d a2 2).2.1 = some ("图片下载失败: " ++ e2) := by
    rw [SaveWallpaper_fetch_error hf2]
  constructor
  · have hcomp : SaveWallpapers d [a0, a1, a2, a3, a4] false =
        saveWallpapersLoop d false [a2, a3, a4] 2
          [(SaveWallpaper d a0 0).1, (SaveWallpaper d a1 1).1] none
          ((SaveWallpaper d a0 0).2.2 ++ (SaveWallpaper d a1 1).2.2) := by
      show saveWallpapersLoop d false [a0, a1, a2, a3, a4] 0 [] none [] = _
      rw [saveWallpapersLoop_cons_ok h0]
      simp only [Int.reduceAdd, List.nil_append]
      rw [saveWallpapersLoop_cons_ok h1]
      simp only [Int.reduceAdd, List.singleton_append]
    have hfin : SaveWallpapers d [a0, a1, a2, a3, a4] false =
        ([(SaveWallpaper d a0 0).1, (SaveWallpaper d a1 1).1],
         some ("处理第 " ++ toString (2 : Int) ++ " 张壁纸失败: " ++ ("图片下载失败: " ++ e2)),
         ((SaveWallpaper d a0 0).2.2 ++ (SaveWallpaper d a1 1).2.2) ++
           (SaveWallpaper d a2 2).2.2) := by
      rw [hcomp]
      exact saveWallpapersLoop_cons_err_stop herr2
    refine ⟨by rw [hfin], by rw [hfin]; rfl, by rw [hfin]; simp, ?_⟩
    intro r hr
    rw [hfin] at hr
    rcases List.mem_cons.mp hr with rfl | hr2
    · exact SaveWallpaper_err_none_downloadErr h0
    · rcases List.mem_cons.mp hr2 with rfl | hr3
      · exact SaveWallpaper_err_none_downloadErr h1
      · cases hr3
  · have hF2err : (FetchAndSaveWallpaper d 2).2.1 = some ("图片下载失败: " ++ e2) := by
      rw [FetchAndSaveWallpaper_meta_ok gm2]
      simpa using herr2
    obtain ⟨r0, hr0, hdr0⟩ := FetchAndSaveWallpaper_err_none g0
    obtain ⟨r1, hr1, hdr1⟩ := FetchAndSaveWallpaper_err_none g1
    have hidx : (List.range (5 : Int).toNat).map Int.ofNat = [0, 1, 2, 3, 4] := by
      decide
    have hcomp : FetchAndSaveWallpapers d 5 false =
        fetchAndSaveWallpapersLoop d false [2, 3, 4] [r0, r1] none
          ((FetchAndSaveWallpaper d 0).2.2 ++ (FetchAndSaveWallpaper d 1).2.2) := by
      show fetchAndSaveWallpapersLoop d false
        ((List.range (5 : Int).toNat).map Int.ofNat) [] none [] = _
      rw [hidx, fetchLoop_cons_ok g0]
      simp only [List.nil_append, hr0, Option.toList_some]
      rw [fetchLoop_cons_ok g1]
      simp only [hr1, Option.toList_some, List.singleton_append]
    have hfin : FetchAndSaveWallpapers d 5 false =
        ([r0, r1],
         some ("处理第 " ++ toString (2 : Int) ++ " 天的壁纸失败: " ++ ("图片下载失败: " ++ e2)),
         ((FetchAndSaveWallpaper d 0).2.2 ++ (FetchAndSaveWallpaper d 1).2.2) ++
           (FetchAndSaveWallpaper d 2).2.2) := by
      rw [hcomp]
      exact fetchLoop_cons_err_stop hF2err
    refine ⟨by rw [hfin]; rfl, by rw [hfin]; simp, ?_⟩
    intro r hr
    rw [hfin] at hr
    rcases List.mem_cons.mp hr with rfl | hr2
    · exact hdr0
    · rcases List.mem_cons.mp hr2 with rfl | hr3
      · exact hdr1
      · cases hr3

/-- C1 witness: the concrete batch of `c1_counterexample` instantiating the
amended statement. -/
theorem c1_amended_witness :
    (FetchRawImageData c1Downloader.client c1Img2).1 = .error "fetchfail" ∧
    (SaveWallpapers c1Downloader [c1Img0, c1Img1, c1Img2, c1Img3, c1Img4] false).1.length = 2 ∧
    (FetchAndSaveWallpapers c1Downloader 5 false).1.length = 2 :=
  ⟨rfl,
   (c1_stop_on_error_partial_result_dropped c1Downloader c1Img0 c1Img1 c1Img2
      c1Img3 c1Img4 "fetchfail" (by decide) (by decide) rfl (by decide) (by decide)
      rfl).1.2.1,
   (c1_stop_on_error_partial_result_dropped c1Downloader c1Img0 c1Img1 c1Img2
      c1Img3 c1Img4 "fetchfail" (by decide) (by decide) rfl (by decide) (by decide)
      rfl).2.1⟩

end BingWallpaper
